import Mathlib

/-!
Verification of the BMI calculator application (`src/app.py`).

The program has two logical units:

* `classify_bmi` — a pure function mapping a BMI value to one of six
  WHO-style labels via an `if/elif` chain of threshold comparisons
  (`app.py` lines 14-27);
* `generate_tips` — builds a prompt, issues one HTTP request to a
  generative-text endpoint, and parses the JSON response into a tip
  text plus a list of citation strings (`app.py` lines 29-84);

plus the Streamlit button handler that guards `peso > 0 ∧ altura > 0`,
computes `imc = peso / altura ** 2` and classifies it
(`app.py` lines 123-158).

Numeric values are modelled as exact rationals (`ℚ`); all the decimal
thresholds compared by the code are short decimal literals, and every
comparison the claims exercise has the same outcome over `ℚ` as over
IEEE doubles.  The JSON/dict navigation performed by `generate_tips`
is modelled by a small Python-value type `PyVal` with Python's
`dict.get` / list-indexing / truthiness semantics, with raised
exceptions modelled by `Except`.
-/

namespace IMCApp

/-- Model of `classify_bmi` (`app.py` lines 14-27).  The Python `elif`
chain with chained comparisons `a <= bmi < b` is rendered as a nested
`if` chain over `ℚ`. -/
def classify_bmi (bmi : ℚ) : String :=
  if bmi < 18.5 then "Magreza"
  else if 18.5 ≤ bmi ∧ bmi < 24.9 then "Normal (Peso Saudável)"
  else if 25.0 ≤ bmi ∧ bmi < 29.9 then "Sobrepeso"
  else if 30.0 ≤ bmi ∧ bmi < 34.9 then "Obesidade Grau I"
  else if 35.0 ≤ bmi ∧ bmi < 39.9 then "Obesidade Grau II (Severa)"
  else "Obesidade Grau III (Mórbida)"

/-- The six labels returned by `classify_bmi`, in increasing order of
severity (the order of the branches in the source). -/
def bmiLabels : List String :=
  ["Magreza", "Normal (Peso Saudável)", "Sobrepeso", "Obesidade Grau I",
   "Obesidade Grau II (Severa)", "Obesidade Grau III (Mórbida)"]

/-- Position of a label in the severity order of the classification
table (`Magreza` least severe, `Obesidade Grau III (Mórbida)` most). -/
def severityRank (label : String) : ℕ :=
  if label = "Magreza" then 0
  else if label = "Normal (Peso Saudável)" then 1
  else if label = "Sobrepeso" then 2
  else if label = "Obesidade Grau I" then 3
  else if label = "Obesidade Grau II (Severa)" then 4
  else 5

/-- Model of the guarded computation in the button handler
(`app.py` lines 126-129): if `altura_m > 0 and peso_kg > 0`, compute
`imc = peso_kg / (altura_m ** 2)` and classify it; otherwise the
handler shows an error and computes nothing (`none`). -/
def buttonCompute (peso_kg altura_m : ℚ) : Option (ℚ × String) :=
  if 0 < altura_m ∧ 0 < peso_kg then
    some (peso_kg / altura_m ^ 2, classify_bmi (peso_kg / altura_m ^ 2))
  else
    none

/-! ### Model of Python values and the JSON navigation in `generate_tips`

`generate_tips` (`app.py` lines 29-84) walks the parsed JSON response
with `dict.get`, list indexing, truthiness tests and a filtering list
comprehension.  `PyVal` models the fragment of Python values the
response handling manipulates (`None`, strings, lists, dicts); dict
keys are assumed distinct, as they are in a parsed JSON object.
Operations that can raise (`.get` on a non-dict, indexing an empty or
non-list value) return `Except String`, the error string modelling
`str(e)` for the raised exception. -/

inductive PyVal where
  | null
  | str (s : String)
  | list (elems : List PyVal)
  | dict (fields : List (String × PyVal))

mutual

/-- Python `repr` of a value, as used when a non-string value is
interpolated inside a list or dict rendering. -/
def pyRepr : PyVal → String
  | .null => "None"
  | .str s => "\x27" ++ s ++ "\x27"
  | .list xs => "[" ++ String.intercalate ", " (pyReprList xs) ++ "]"
  | .dict kvs => "\x7b" ++ String.intercalate ", " (pyReprKVs kvs) ++ "\x7d"

def pyReprList : List PyVal → List String
  | [] => []
  | v :: vs => pyRepr v :: pyReprList vs

def pyReprKVs : List (String × PyVal) → List String
  | [] => []
  | (k, v) :: kvs => ("\x27" ++ k ++ "\x27: " ++ pyRepr v) :: pyReprKVs kvs

end

/-- Python `str()` of a value, as applied by an f-string interpolation:
strings render as themselves, `None` as `"None"`, containers by their
`repr`. -/
def pyStr : PyVal → String
  | .null => "None"
  | .str s => s
  | .list xs => pyRepr (.list xs)
  | .dict kvs => pyRepr (.dict kvs)

/-- Python `d.get(k, default)`: on a dict, the value at `k` or the
default; on any other value, an `AttributeError` is raised. -/
def pyGet (v : PyVal) (k : String) (dflt : PyVal) : Except String PyVal :=
  match v with
  | .dict kvs =>
    match kvs.find? (fun p => p.1 == k) with
    | some p => .ok p.2
    | none => .ok dflt
  | _ => .error "AttributeError: object has no attribute get"

/-- Total variant of dict lookup used to state properties: the value at
`k` in a dict, the default otherwise (never raises). -/
def dGet (v : PyVal) (k : String) (dflt : PyVal) : PyVal :=
  match v with
  | .dict kvs =>
    match kvs.find? (fun p => p.1 == k) with
    | some p => p.2
    | none => dflt
  | _ => dflt

/-- Python `v[i]` on a list: the element, or an `IndexError` when out
of range; a `TypeError` on a non-list. -/
def pyIndex (v : PyVal) (i : ℕ) : Except String PyVal :=
  match v with
  | .list xs =>
    match xs.get? i with
    | some x => .ok x
    | none => .error "list index out of range"
  | _ => .error "TypeError: object is not subscriptable"

/-- Python truthiness: `None`, the empty string, the empty list and the
empty dict are falsy; everything else in the modelled fragment is
truthy. -/
def pyTruthy : PyVal → Bool
  | .null => false
  | .str s => !(s == "")
  | .list xs => !xs.isEmpty
  | .dict kvs => !kvs.isEmpty

/-- Whether a value is a Python dict (so that `.get` succeeds). -/
def isDict : PyVal → Bool
  | .dict _ => true
  | _ => false

/-- Model of the list comprehension at `app.py` lines 73-77:

`[f"[(title)]((uri))" for attr in attrs if attr.get('web') and attr.get('web').get('uri')]`

(with the f-string `"[" + title + "](" + uri + ")"`).  For one
attribution the guard evaluates `attr.get('web')` (default `None`) and,
when truthy, `.get('uri')` on it; when the guard holds, the element
re-evaluates `attr.get('web', the empty dict)` and formats its
`title` and `uri` fields.  `some` is a kept element, `Option.none` a
skipped one, `.error` a raised `AttributeError`. -/
def extractAttr (attr : PyVal) : Except String (Option String) :=
  match pyGet attr "web" .null with
  | .error err => .error err
  | .ok w =>
    if pyTruthy w then
      match pyGet w "uri" .null with
      | .error err => .error err
      | .ok u =>
        if pyTruthy u then
          match pyGet attr "web" (.dict []) with
          | .error err => .error err
          | .ok w2 =>
            match pyGet w2 "title" .null with
            | .error err => .error err
            | .ok t =>
              match pyGet w2 "uri" .null with
              | .error err => .error err
              | .ok u2 => .ok (some ("[" ++ pyStr t ++ "](" ++ pyStr u2 ++ ")"))
        else
          .ok Option.none
    else
      .ok Option.none

/-- The whole comprehension, element by element in order; a raised
exception aborts it, as in Python. -/
def extractSources : List PyVal → Except String (List String)
  | [] => .ok []
  | attr :: rest =>
    match extractAttr attr with
    | .error err => .error err
    | .ok keep =>
      match extractSources rest with
      | .error err => .error err
      | .ok restSources =>
        .ok (match keep with
             | some c => c :: restSources
             | Option.none => restSources)

/-- The fallback tip text at `app.py` line 67. -/
def fallbackText : String := "Não foi possível gerar as dicas."

/-- Model of the response-parsing body of the `try` block
(`app.py` lines 63-79), after `response.json()` has produced `result`:

* `candidate = result.get('candidates', [x7b x7d])[0]`
* `text = candidate.get('content', x7bx7d).get('parts', [x7bx7d])[0].get('text', fallback)`
* `sources = []`, reassigned by the comprehension when
  `grounding_metadata and grounding_metadata.get('groundingAttributions')`
  is truthy.

An `.error e` models an exception raised inside the `try` block, with
`e` the text `str(e)` interpolated by the handler at line 84.
Iterating a truthy non-list value either raises or yields non-dict
elements on which `.get` raises, so it is modelled as an error. -/
def parseBody (result : PyVal) : Except String (PyVal × List String) := do
  let candidates ← pyGet result "candidates" (.list [.dict []])
  let candidate ← pyIndex candidates 0
  let content ← pyGet candidate "content" (.dict [])
  let parts ← pyGet content "parts" (.list [.dict []])
  let part0 ← pyIndex parts 0
  let text ← pyGet part0 "text" (.str fallbackText)
  let gm ← pyGet candidate "groundingMetadata" .null
  let sources ←
    if pyTruthy gm then do
      let ga ← pyGet gm "groundingAttributions" .null
      if pyTruthy ga then
        match ga with
        | .list attrs => extractSources attrs
        | _ => .error "AttributeError: object has no attribute get"
      else
        pure []
    else
      pure []
  pure (text, sources)

/-- Result of a call to `generate_tips`: every path inside the function
returns either a bare string (the missing-credential return at line 35)
or a pair of a tip value and a list of citation strings (every other
`return`). -/
inductive GenResult where
  | strOnly (s : String)
  | pair (text : PyVal) (sources : List String)

/-- Outcome of the HTTP call at `app.py` lines 60-63: either a raised
`requests.exceptions.RequestException` (timeout, DNS failure,
connection refused, or the `HTTPError` raised by `raise_for_status` on
a non-2xx status), carrying `str(e)`, or a successfully decoded JSON
body. -/
inductive HttpOutcome where
  | reqError (e : String)
  | ok (body : PyVal)

/-- The missing-credential message returned at `app.py` line 35. -/
def apiKeyErrorMsg : String :=
  "Erro: A chave da API Gemini não foi configurada. Por favor, configure a variável de ambiente ou secret \x27GEMINI_API_KEY\x27."

/-- Prefix of the message built by the `RequestException` handler at
`app.py` line 82. -/
def connErrPrefix : String := "Erro de conexão com a API Gemini: "

/-- Prefix of the message built by the generic `Exception` handler at
`app.py` line 84. -/
def procErrPrefix : String := "Ocorreu um erro ao processar a resposta da API: "

/-- Model of `generate_tips` (`app.py` lines 29-84).  `apiKey` is the
`API_KEY` module global (empty string when the environment variable is
unset, line 9); `net` is the outcome of the HTTP exchange.  The `Bool`
component records whether the HTTP request was issued: the
missing-credential path returns before any network activity.  Prompt
and payload construction (lines 39-55) only feed the request and are
not modelled. -/
def generate_tips (apiKey : String) (net : HttpOutcome) : GenResult × Bool :=
  if apiKey = "" then
    (.strOnly apiKeyErrorMsg, false)
  else
    match net with
    | .reqError e => (.pair (.str (connErrPrefix ++ e)) [], true)
    | .ok body =>
      match parseBody body with
      | .ok (text, sources) => (.pair text sources, true)
      | .error e => (.pair (.str (procErrPrefix ++ e)) [], true)

/-- Whether the two-variable unpacking `tips_text, sources = ...` at
`app.py` line 141 succeeds on a value: it does on any pair, and on a
bare string only when the string has exactly two characters (Python
unpacks a string as a sequence of its characters). -/
def unpack2Ok : GenResult → Bool
  | .pair _ _ => true
  | .strOnly s => s.length == 2

/-- Whether `pat` occurs as a contiguous prefix of `l`. -/
def startsWithChars : List Char → List Char → Bool
  | [], _ => true
  | _ :: _, [] => false
  | p :: ps, c :: cs => p == c && startsWithChars ps cs

/-- Whether `pat` occurs as a contiguous sublist of `l`. -/
def hasSubChars (pat : List Char) : List Char → Bool
  | [] => startsWithChars pat []
  | c :: cs => startsWithChars pat (c :: cs) || hasSubChars pat cs

/-- Whether the string `pat` occurs inside `s` (Python `pat in s`). -/
def strContainsSub (s pat : String) : Bool :=
  hasSubChars pat.data s.data

/-- Citation produced by one attribution, as a total function: `some`
of the formatted `[title](uri)` string when `attr.get('web')` and its
`uri` field are truthy, `none` when the attribution is skipped.  Used
to characterise the comprehension modelled by `extractSources`. -/
def citationOf (attr : PyVal) : Option String :=
  let w := dGet attr "web" .null
  if pyTruthy w && pyTruthy (dGet w "uri" .null) then
    some ("[" ++ pyStr (dGet w "title" .null) ++ "](" ++ pyStr (dGet w "uri" .null) ++ ")")
  else
    Option.none

/-- Whether an attribution carries a URL in the sense tested by the
comprehension guard: a truthy `web` value whose `uri` field is truthy. -/
def hasURL (attr : PyVal) : Bool :=
  pyTruthy (dGet attr "web" .null) && pyTruthy (dGet (dGet attr "web" .null) "uri" .null)

/-- A well-formed API response body: one candidate carrying the tip
text and a grounding-metadata object with the given attributions. -/
def mkBody (tip : String) (attrs : List PyVal) : PyVal :=
  .dict [("candidates", .list [
    .dict [("content", .dict [("parts", .list [.dict [("text", .str tip)]])]),
           ("groundingMetadata", .dict [("groundingAttributions", .list attrs)])]])]

/-- A response body whose `candidates` key holds an empty array, so
that `result.get('candidates', [x7bx7d])[0]` raises `IndexError`. -/
def emptyCandidatesBody : PyVal := .dict [("candidates", .list [])]

/-! ### Theorems -/

/-- **C1** — For every weight `w` and height `h` with `w > 0` and
`h > 0` (in particular throughout the input-widget ranges
`1.0 ≤ w ≤ 300.0`, `0.50 ≤ h ≤ 3.00`), the button handler's guard
passes and the BMI it computes is `w / h ^ 2`; the final conjunct
checks that the quotient is the genuine one, i.e. multiplying back by
`h ^ 2` recovers `w`. -/
theorem claim_C1_bmi_formula (w h : ℚ) (hw : 0 < w) (hh : 0 < h) :
    buttonCompute w h = some (w / h ^ 2, classify_bmi (w / h ^ 2)) ∧
    (w / h ^ 2) * h ^ 2 = w := by
  constructor
  · unfold buttonCompute
    rw [if_pos ⟨hh, hw⟩]
  · exact div_mul_cancel₀ w (pow_ne_zero 2 hh.ne')

/-- Witness for C1 at the default inputs `w = 70.0`, `h = 1.75`. -/
theorem claim_C1_witness :
    buttonCompute 70 1.75 = some (70 / 1.75 ^ 2, classify_bmi (70 / 1.75 ^ 2)) ∧
    ((70 : ℚ) / 1.75 ^ 2) * 1.75 ^ 2 = 70 :=
  claim_C1_bmi_formula 70 1.75 (by norm_num) (by norm_num)

/-- **C3** — Every BMI in `[24.9, 25.0)` falls through all five tested
conditions of `classify_bmi` to the final else branch and is labelled
`"Obesidade Grau III (Mórbida)"`, not `"Normal (Peso Saudável)"` and
not `"Sobrepeso"`. -/
theorem claim_C3_gap_249 (b : ℚ) (h1 : 24.9 ≤ b) (h2 : b < 25.0) :
    classify_bmi b = "Obesidade Grau III (Mórbida)" ∧
    classify_bmi b ≠ "Normal (Peso Saudável)" ∧
    classify_bmi b ≠ "Sobrepeso" := by
  have hc : classify_bmi b = "Obesidade Grau III (Mórbida)" := by
    unfold classify_bmi
    split_ifs with h3 h4 h5 h6 h7
    · exfalso; linarith
    · exfalso; linarith [h4.1, h4.2]
    · exfalso; linarith [h5.1, h5.2]
    · exfalso; linarith [h6.1, h6.2]
    · exfalso; linarith [h7.1, h7.2]
    · rfl
  refine ⟨hc, ?_, ?_⟩ <;> rw [hc] <;> decide

/-- Witness for C3 at the boundary value `24.9` itself. -/
theorem claim_C3_witness :
    classify_bmi 24.9 = "Obesidade Grau III (Mórbida)" ∧
    classify_bmi 24.9 ≠ "Normal (Peso Saudável)" ∧
    classify_bmi 24.9 ≠ "Sobrepeso" :=
  claim_C3_gap_249 24.9 (le_refl _) (by norm_num)

/-- **C5** — The stated boundary values of `classify_bmi`: `18.5` is
`"Normal (Peso Saudável)"`, `18.49999` is `"Magreza"`, and `30.0` is
`"Obesidade Grau I"`. -/
theorem claim_C5_boundary_values :
    classify_bmi 18.5 = "Normal (Peso Saudável)" ∧
    classify_bmi 18.49999 = "Magreza" ∧
    classify_bmi 30.0 = "Obesidade Grau I" := by
  refine ⟨?_, ?_, ?_⟩ <;> norm_num [classify_bmi]

/-- **C7** — `classify_bmi` is a total function of the BMI value
alone: every value is mapped to one of the six fixed labels, and the
six labels are pairwise distinct. -/
theorem claim_C7_total_six_labels (b : ℚ) :
    classify_bmi b ∈ bmiLabels ∧ bmiLabels.Nodup := by
  constructor
  · unfold classify_bmi
    split_ifs <;> simp [bmiLabels]
  · decide

/-- **C8** — End-to-end on the computation path: `70.0 / 1.75 ^ 2`
equals `160 / 7`, which agrees with the stated decimal
`22.857142857142858` to within the spec's `1e-9` tolerance (the
decimal is the IEEE-double rendering of `160 / 7`) and classifies as
`"Normal (Peso Saudável)"`; `120.0 / 1.60 ^ 2` equals `46.875`
exactly and classifies as `"Obesidade Grau III (Mórbida)"`. -/
theorem claim_C8_end_to_end :
    buttonCompute 70 1.75 = some (160 / 7, "Normal (Peso Saudável)") ∧
    |(160 / 7 : ℚ) - 22.857142857142858| < 1e-9 ∧
    buttonCompute 120 1.60 = some (46.875, "Obesidade Grau III (Mórbida)") := by
  refine ⟨?_, ?_, ?_⟩
  · norm_num [buttonCompute, classify_bmi]
  · rw [abs_sub_lt_iff]
    constructor <;> norm_num
  · norm_num [buttonCompute, classify_bmi]

/-- **C10** — Every BMI in the undocumented gaps `[29.9, 30.0)` and
`[34.9, 35.0)` falls to the final else branch of `classify_bmi` and is
labelled `"Obesidade Grau III (Mórbida)"`; consequently the
classification is not monotone: `29.95` receives a strictly more
severe label than `31`. -/
theorem claim_C10_gaps_not_monotone (b : ℚ)
    (h : (29.9 ≤ b ∧ b < 30.0) ∨ (34.9 ≤ b ∧ b < 35.0)) :
    classify_bmi b = "Obesidade Grau III (Mórbida)" ∧
    severityRank (classify_bmi 29.95) > severityRank (classify_bmi 31) := by
  constructor
  · obtain ⟨h1, h2⟩ | ⟨h1, h2⟩ := h <;>
    · unfold classify_bmi
      split_ifs with h3 h4 h5 h6 h7
      · exfalso; linarith
      · exfalso; linarith [h4.1, h4.2]
      · exfalso; linarith [h5.1, h5.2]
      · exfalso; linarith [h6.1, h6.2]
      · exfalso; linarith [h7.1, h7.2]
      · rfl
  · have e1 : classify_bmi 29.95 = "Obesidade Grau III (Mórbida)" := by
      norm_num [classify_bmi]
    have e2 : classify_bmi 31 = "Obesidade Grau I" := by
      norm_num [classify_bmi]
    rw [e1, e2]
    decide

/-- Witness for C10 at `29.95`, inside the gap `[29.9, 30.0)`. -/
theorem claim_C10_witness :
    classify_bmi 29.95 = "Obesidade Grau III (Mórbida)" ∧
    severityRank (classify_bmi 29.95) > severityRank (classify_bmi 31) :=
  claim_C10_gaps_not_monotone 29.95 (Or.inl ⟨by norm_num, by norm_num⟩)

/-- **C2** (records the code's actual behaviour on a missing
credential) — With `API_KEY` empty, `generate_tips` returns before any
network activity (the `Bool` network flag is `false` and the result
does not depend on the network outcome), and the returned value is the
bare error string containing the marker `"não foi configurada"` —
a `strOnly`, not a `(text, sources)` pair with an empty citation list,
so the caller's two-variable unpacking at line 141 cannot succeed on
it (`unpack2Ok` is `false`). -/
theorem claim_C2_missing_key (net : HttpOutcome) :
    generate_tips "" net = (.strOnly apiKeyErrorMsg, false) ∧
    strContainsSub apiKeyErrorMsg "não foi configurada" = true ∧
    unpack2Ok (GenResult.strOnly apiKeyErrorMsg) = false ∧
    (∀ text sources, GenResult.strOnly apiKeyErrorMsg ≠ GenResult.pair text sources) := by
  refine ⟨rfl, by decide, by decide, ?_⟩
  intro text sources h
  exact GenResult.noConfusion h

/-- **C4**, counterexample — On a well-formed response whose
`candidates` array is present but empty, `generate_tips` does not
return the fallback `"Não foi possível gerar as dicas."`: the
default in `result.get('candidates', [x7bx7d])` applies only when the
key is absent, so `[0]` raises `IndexError`, caught by the generic
handler, and the generic processing-error pair is returned instead. -/
theorem claim_C4_counterexample :
    generate_tips "k" (.ok emptyCandidatesBody)
      = (.pair (.str (procErrPrefix ++ "list index out of range")) [], true) ∧
    (generate_tips "k" (.ok emptyCandidatesBody)).1
      ≠ GenResult.pair (.str fallbackText) [] := by
  refine ⟨rfl, ?_⟩
  intro h
  have e : (generate_tips "k" (.ok emptyCandidatesBody)).1
      = GenResult.pair (.str (procErrPrefix ++ "list index out of range")) [] := rfl
  rw [e] at h
  injection h with h1 h2
  injection h1 with h3
  exact absurd h3 (by decide)

/-- **C4**, amended — On an empty `candidates` array the call does not
crash: for any configured key, `generate_tips` catches the
`IndexError` and returns the generic processing-error string paired
with an empty citation list.  (The fallback text is returned when the
`candidates` key is absent altogether, second conjunct.) -/
theorem claim_C4_amended_empty_candidates (key : String) (hk : key ≠ "") :
    generate_tips key (.ok emptyCandidatesBody)
      = (.pair (.str (procErrPrefix ++ "list index out of range")) [], true) ∧
    parseBody (.dict []) = .ok (.str fallbackText, []) := by
  constructor
  · unfold generate_tips
    rw [if_neg hk]
    rfl
  · rfl

/-- Witness for the amended C4 with the concrete key `"k"`. -/
theorem claim_C4_witness :
    generate_tips "k" (.ok emptyCandidatesBody)
      = (.pair (.str (procErrPrefix ++ "list index out of range")) [], true) ∧
    parseBody (.dict []) = .ok (.str fallbackText, []) :=
  claim_C4_amended_empty_candidates "k" (by decide)

/-- **C6** — With a configured key, every network-level failure of the
HTTP call (timeout, DNS, connection refused, and the non-2xx
`HTTPError` from `raise_for_status`, all `RequestException`s) yields
the connection-error string with the cause appended, paired with an
empty citation list; and every exception raised while navigating the
parsed response yields the processing-error string with the cause
appended, paired with an empty citation list.  Both handlers return
normally — `generate_tips` is total, so no exception propagates. -/
theorem claim_C6_error_handling (key e msg : String) (body : PyVal) (hk : key ≠ "") :
    generate_tips key (.reqError e) = (.pair (.str (connErrPrefix ++ e)) [], true) ∧
    (parseBody body = .error msg →
      generate_tips key (.ok body) = (.pair (.str (procErrPrefix ++ msg)) [], true)) := by
  constructor
  · unfold generate_tips
    rw [if_neg hk]
  · intro hp
    unfold generate_tips
    rw [if_neg hk]
    simp only [hp]

/-- Witness for C6: a timeout on the wire, and the `IndexError` from
an empty `candidates` array, both with key `"k"`. -/
theorem claim_C6_witness :
    generate_tips "k" (.reqError "timeout") = (.pair (.str (connErrPrefix ++ "timeout")) [], true) ∧
    (parseBody emptyCandidatesBody = .error "list index out of range" →
      generate_tips "k" (.ok emptyCandidatesBody)
        = (.pair (.str (procErrPrefix ++ "list index out of range")) [], true)) :=
  claim_C6_error_handling "k" "timeout" "list index out of range" emptyCandidatesBody (by decide)

/-- On a dict, `pyGet` never raises and agrees with the total lookup
`dGet`. -/
theorem pyGet_dict (kvs : List (String × PyVal)) (k : String) (d : PyVal) :
    pyGet (.dict kvs) k d = .ok (dGet (.dict kvs) k d) := by
  cases hf : kvs.find? (fun p => p.1 == k) <;> simp [pyGet, dGet, hf]

/-- When the looked-up value is truthy the key is present, so the
default is irrelevant. -/
theorem dGet_default_of_truthy (v : PyVal) (k : String) (d : PyVal)
    (h : pyTruthy (dGet v k .null) = true) : dGet v k d = dGet v k .null := by
  cases v with
  | dict kvs =>
    cases hf : kvs.find? (fun p => p.1 == k) with
    | some p => simp [dGet, hf]
    | none => simp [dGet, hf, pyTruthy] at h
  | null => simp [dGet, pyTruthy] at h
  | str s => simp [dGet, pyTruthy] at h
  | list xs => simp [dGet, pyTruthy] at h

/-- A value on which `.get` succeeds is a dict. -/
theorem isDict_exists (v : PyVal) (h : isDict v = true) : ∃ kvs, v = .dict kvs := by
  cases v with
  | dict kvs => exact ⟨kvs, rfl⟩
  | null => simp [isDict] at h
  | str s => simp [isDict] at h
  | list xs => simp [isDict] at h

/-- On a dict attribution (with a dict `web` value when truthy), the
guard-and-element evaluation never raises and computes `citationOf`. -/
theorem extractAttr_eq (attr : PyVal) (ha : isDict attr = true)
    (hweb : pyTruthy (dGet attr "web" .null) = true →
        isDict (dGet attr "web" .null) = true) :
    extractAttr attr = .ok (citationOf attr) := by
  obtain ⟨kvs, rfl⟩ := isDict_exists attr ha
  cases hw : pyTruthy (dGet (.dict kvs) "web" .null) with
  | false => simp [extractAttr, citationOf, pyGet_dict, hw]
  | true =>
    obtain ⟨kvs2, hkvs2⟩ := isDict_exists _ (hweb hw)
    have hw' : pyTruthy (PyVal.dict kvs2) = true := hkvs2 ▸ hw
    have hdef : dGet (.dict kvs) "web" (.dict []) = PyVal.dict kvs2 :=
      (dGet_default_of_truthy _ _ _ hw).trans hkvs2
    cases hu : pyTruthy (dGet (.dict kvs2) "uri" .null) with
    | false => simp [extractAttr, citationOf, pyGet_dict, hkvs2, hw', hu]
    | true => simp [extractAttr, citationOf, pyGet_dict, hkvs2, hw', hu, hdef]

/-- The comprehension modelled by `extractSources` succeeds on any
attribution list whose elements are dicts (with dict `web` values when
truthy) and returns exactly the citations of the attributions the
guard keeps, in order. -/
theorem extractSources_filterMap (attrs : List PyVal)
    (h1 : ∀ a ∈ attrs, isDict a = true)
    (h2 : ∀ a ∈ attrs, pyTruthy (dGet a "web" .null) = true →
        isDict (dGet a "web" .null) = true) :
    extractSources attrs = .ok (attrs.filterMap citationOf) := by
  induction attrs with
  | nil => rfl
  | cons attr rest ih =>
    have hA := extractAttr_eq attr (h1 attr (List.mem_cons_self _ _))
      (h2 attr (List.mem_cons_self _ _))
    have hrest := ih (fun a haa => h1 a (List.mem_cons_of_mem _ haa))
      (fun a haa => h2 a (List.mem_cons_of_mem _ haa))
    cases hc : citationOf attr with
    | none => simp [extractSources, hA, hrest, hc, List.filterMap_cons]
    | some c => simp [extractSources, hA, hrest, hc, List.filterMap_cons]

/-- **C9** — For every well-formed response carrying a tip and a list
of grounding attributions, parsing succeeds, the tip text is
extracted, and the citation list contains exactly one `[title](uri)`
entry per attribution kept by the guard, in order; an attribution is
kept exactly when it has a URL (a truthy `web` object whose `uri`
field is truthy — in particular one with no `web` object or no `uri`
field is skipped). -/
theorem claim_C9_citations (tip : String) (attrs : List PyVal)
    (h1 : ∀ a ∈ attrs, isDict a = true)
    (h2 : ∀ a ∈ attrs, pyTruthy (dGet a "web" .null) = true →
        isDict (dGet a "web" .null) = true) :
    parseBody (mkBody tip attrs) = .ok (.str tip, attrs.filterMap citationOf) ∧
    (∀ attr, (citationOf attr).isSome = hasURL attr) := by
  constructor
  · cases attrs with
    | nil => rfl
    | cons a rest =>
      have hE := extractSources_filterMap (a :: rest) h1 h2
      show (extractSources (a :: rest) >>= fun sources =>
          pure ((PyVal.str tip : PyVal), sources)) = _
      rw [hE]
      rfl
  · intro attr
    simp only [citationOf, hasURL]
    cases hc : pyTruthy (dGet attr "web" .null) &&
        pyTruthy (dGet (dGet attr "web" .null) "uri" .null) <;> simp [hc]

/-- Witness for C9: a tip with three attributions — one complete, one
whose `web` object has no `uri`, one with no `web` object — yielding
exactly one citation. -/
theorem claim_C9_witness :
    parseBody (mkBody "dica"
      [.dict [("web", .dict [("title", .str "T"), ("uri", .str "U")])],
       .dict [("web", .dict [("title", .str "S")])],
       .dict []])
      = .ok (.str "dica",
          [.dict [("web", .dict [("title", .str "T"), ("uri", .str "U")])],
           .dict [("web", .dict [("title", .str "S")])],
           .dict []].filterMap citationOf) ∧
    (∀ attr, (citationOf attr).isSome = hasURL attr) :=
  claim_C9_citations "dica"
    [.dict [("web", .dict [("title", .str "T"), ("uri", .str "U")])],
     .dict [("web", .dict [("title", .str "S")])],
     .dict []]
    (by decide) (by decide)

end IMCApp
